import Mathlib

/-!
# Verification of the cluster sharding runtime

A shallow embedding, in Lean 4, of the parts of the `@effect/cluster` sharding
runtime that the specification's claims are about:

* the `hashString` / `hashOptimize` / `getShardId` shard-derivation functions
  (`packages/cluster/src/internal/sharding.ts`);
* the local `ShardManagerClient` (`makeLocal`);
* the routing function `sendToLocalEntityManager` and its helper
  `isEntityOnLocalShards`;
* the pod `unregister` shutdown sequence;
* the `EntityManager` (`entityManager-old.ts`, second revision in that file):
  its `send` pipeline with its error policy, the `Replier` produced by
  `makeReplier`, the expiration fiber started by `startExpirationFiber`,
  `terminateEntity`, and the state (`entities`, `lastActiveTimes`) they act on.

JavaScript machine arithmetic is modelled explicitly: 32-bit bit patterns are
`Nat` values `< 2^32` (bitwise operators act on the pattern directly), the
signed reading of a pattern is recovered by `toInt32`, and JavaScript's
truncated remainder `%` on integers is `Int.tmod`.  UTF-16 code units (the
values produced by `String.prototype.charCodeAt`) are `Fin 65536`.

Effectful code is embedded by making each suspension's observed outcome an
explicit parameter (an oracle) and computing either the trace of
state-affecting actions the code performs or the resulting state, so that the
sequencing and error-policy claims become statements about pure functions.
-/

set_option autoImplicit false

namespace ClusterSpec

/-! ## Association lists

The source keeps its maps in immutable `HashMap`s (keyed by structural
equality).  We model them as association lists with lookup by decidable
equality; `setA` is `HashMap.set` (insert-or-overwrite), `removeA` is
`HashMap.remove`. -/

variable {α : Type} {β : Type}

/-- Lookup in an association list: first entry with an equal key. -/
def lookupA [DecidableEq α] : List (α × β) → α → Option β
  | [], _ => none
  | (k, v) :: rest, a => if k = a then some v else lookupA rest a

/-- Insert-or-overwrite, the semantics of `HashMap.set`. -/
def setA [DecidableEq α] : List (α × β) → α → β → List (α × β)
  | [], a, b => [(a, b)]
  | (k, v) :: rest, a, b => if k = a then (a, b) :: rest else (k, v) :: setA rest a b

/-- Key removal, the semantics of `HashMap.remove`. -/
def removeA [DecidableEq α] : List (α × β) → α → List (α × β)
  | [], _ => []
  | (k, v) :: rest, a => if k = a then removeA rest a else (k, v) :: removeA rest a

theorem lookupA_setA_self [DecidableEq α] (l : List (α × β)) (a : α) (b : β) :
    lookupA (setA l a b) a = some b := by
  induction l with
  | nil => simp [setA, lookupA]
  | cons kv rest ih =>
    obtain ⟨k, v⟩ := kv
    by_cases h : k = a
    · simp [setA, lookupA, h]
    · simp [setA, lookupA, h, ih]

theorem lookupA_setA_ne [DecidableEq α] (l : List (α × β)) (a a' : α) (b : β)
    (h : a' ≠ a) : lookupA (setA l a' b) a = lookupA l a := by
  induction l with
  | nil => simp [setA, lookupA, h]
  | cons kv rest ih =>
    obtain ⟨k, v⟩ := kv
    by_cases hk : k = a'
    · subst hk
      simp [setA, lookupA, h]
    · by_cases hk' : k = a
      · subst hk'
        simp [setA, lookupA, hk, Ne.symm h]
      · simp [setA, lookupA, hk, hk', ih]

theorem lookupA_removeA_ne [DecidableEq α] (l : List (α × β)) (a a' : α)
    (h : a' ≠ a) : lookupA (removeA l a') a = lookupA l a := by
  induction l with
  | nil => simp [removeA, lookupA]
  | cons kv rest ih =>
    obtain ⟨k, v⟩ := kv
    by_cases hk : k = a'
    · subst hk
      simp [removeA, lookupA, h, ih]
    · by_cases hk' : k = a
      · subst hk'
        simp [removeA, lookupA, hk, ih]
      · simp [removeA, lookupA, hk, hk', ih]

/-! ## Identifiers and addresses

`EntityId` is a JavaScript string, i.e. a sequence of UTF-16 code units;
`EntityType` is a (branded) string, modelled by `String`; `PodAddress` is a
`(host, port)` pair with structural equality; `EntityAddress` is the triple
`(shardId, entityType, entityId)` with structural equality. -/

/-- A UTF-16 code unit, the value of `String.prototype.charCodeAt`. -/
abbrev CodeUnit := Fin 65536

/-- A JavaScript string viewed as its sequence of UTF-16 code units. -/
abbrev EntityId := List CodeUnit

/-- `PodAddress` — `(host, port)`; equality is structural. -/
structure PodAddress where
  host : String
  port : Nat
deriving DecidableEq, Repr

/-- `EntityAddress` — `(shardId, entityType, entityId)`; equality is
structural (all three fields). -/
structure EntityAddress where
  shardId : Nat
  entityType : String
  entityId : EntityId
deriving DecidableEq, Repr

/-! ## Shard-id derivation (`sharding.ts`, `hashString` / `getShardId`)

```
const hashOptimize = (n: number): number => (n & 0xbfffffff) | ((n >>> 1) & 0x40000000)

const hashString = (str: string) => {
  let h = 5381, i = str.length
  while (i) {
    h = (h * 33) ^ str.charCodeAt(--i)
  }
  return hashOptimize(h)
}

function getShardId(entityId: EntityId): ShardId {
  return ShardId.make(Math.abs(hashString(entityId) % config.numberOfShards))
}
```

The `while` loop starts at the last index and walks down to index `0`, so the
last code unit is folded into the accumulator first: a right fold.  `h` is an
`int32` after every `^`; we carry its unsigned 32-bit pattern (`h * 33` is
exact in doubles for `|h| < 2^31`, and `ToInt32(h * 33)` has the pattern
`(pattern(h) * 33) % 2^32`).  `n >>> 1` is `ToUint32(n) >> 1`, i.e. division
of the pattern by two; `&`, `|`, `^` act on the pattern directly. -/

/-- The signed (`int32`) reading of a 32-bit pattern. -/
def toInt32 (bits : Nat) : Int :=
  if bits < 2147483648 then (bits : Int) else (bits : Int) - 4294967296

/-- One loop iteration of `hashString`: `h = (h * 33) ^ code` on 32-bit
patterns. -/
def djb2Step (h : Nat) (c : CodeUnit) : Nat :=
  ((h * 33) % 4294967296) ^^^ c.val

/-- `hashOptimize` on 32-bit patterns:
`(n & 0xbfffffff) | ((n >>> 1) & 0x40000000)`. -/
def hashOptimize (n : Nat) : Nat :=
  (n &&& 0xbfffffff) ||| ((n >>> 1) &&& 0x40000000)

/-- `hashString` from the source: the `djb2` loop over the code units from
index `length - 1` down to `0` (a right fold, so the last unit is processed
first), then `hashOptimize`.  Returns the 32-bit pattern of the result. -/
def hashString (s : EntityId) : Nat :=
  hashOptimize (s.foldr (fun c h => djb2Step h c) 5381)

/-- `getShardId` from the source:
`Math.abs(hashString(entityId) % numberOfShards)`, with JavaScript's
truncated `%` (`Int.tmod`) applied to the signed value of the hash. -/
def getShardId (s : EntityId) (numberOfShards : Nat) : Nat :=
  ((toInt32 (hashString s)).tmod (numberOfShards : Int)).natAbs

/-- The claim's wording of the loop: fold the code units from index
`length - 1` down to `0` with initial `h = 5381` and step
`h = (h * 33) XOR code`. -/
def djb2Reverse (s : EntityId) : Nat :=
  s.foldr (fun c h => ((h * 33) % 4294967296) ^^^ c.val) 5381

/-- The claim's wording of shard derivation: the absolute value is taken
**before** the modulo. -/
def shardIdFromSpec (s : EntityId) (numberOfShards : Nat) : Nat :=
  (toInt32 (hashOptimize (djb2Reverse s))).natAbs % numberOfShards

theorem hashString_eq_spec (s : EntityId) :
    hashString s = hashOptimize (djb2Reverse s) := rfl

/-- For a nonnegative divisor, the absolute value of the truncated remainder
is the remainder of the absolute values: `|x tmod n| = |x| % n`.  This is why
the source's abs-after-mod agrees with the spec's abs-before-mod. -/
theorem natAbs_tmod_eq (x : Int) (n : Nat) :
    (x.tmod (n : Int)).natAbs = x.natAbs % n := by
  cases x with
  | ofNat m => rfl
  | negSucc m =>
    show (-(Int.ofNat (m.succ % n))).natAbs = m.succ % n
    rw [Int.natAbs_neg]
    rfl

/-- C2: for every entityId and every positive numberOfShards, `getShardId`
equals `abs(hashOptimize(djb2Reverse(entityId))) mod numberOfShards` — the
source takes `Math.abs` after the `%` but the two agree — and the result lies
in `[0, numberOfShards)`. -/
theorem getShardId_matches_spec (s : EntityId) (numberOfShards : Nat)
    (h : 0 < numberOfShards) :
    getShardId s numberOfShards = shardIdFromSpec s numberOfShards
      ∧ getShardId s numberOfShards < numberOfShards := by
  refine ⟨?_, ?_⟩
  · unfold getShardId shardIdFromSpec
    rw [natAbs_tmod_eq, hashString_eq_spec]
  · unfold getShardId
    rw [natAbs_tmod_eq]
    exact Nat.mod_lt _ h

theorem getShardId_matches_spec_witness :
    0 < 16
      ∧ (getShardId [⟨120, by decide⟩] 16 = shardIdFromSpec [⟨120, by decide⟩] 16
        ∧ getShardId [⟨120, by decide⟩] 16 < 16) :=
  ⟨by decide, getShardId_matches_spec [⟨120, by decide⟩] 16 (by decide)⟩

/-- C4 counterexample: for the empty entityId and `numberOfShards = 2`, the
code computes `getShardId("") = 5381 mod 2 = 1`, not `0` — refuting the claim
that `getShardId("") = 0` for every positive number of shards. -/
theorem getShardId_empty_counterexample :
    0 < 2 ∧ getShardId [] 2 = 1 ∧ ¬ getShardId [] 2 = 0 := by decide

/-- C4 (amended): for every positive numberOfShards, `getShardId("")` equals
`5381 % numberOfShards` (the djb2 seed re-mixed by `hashOptimize`, which fixes
`5381`; this is `0` exactly when numberOfShards divides `5381`), and every
single-character entityId hashes into `[0, numberOfShards)`. -/
theorem getShardId_boundary (numberOfShards : Nat) (c : CodeUnit)
    (h : 0 < numberOfShards) :
    getShardId [] numberOfShards = 5381 % numberOfShards
      ∧ getShardId [c] numberOfShards < numberOfShards := by
  refine ⟨?_, ?_⟩
  · unfold getShardId
    rw [natAbs_tmod_eq]
    have h5381 : (toInt32 (hashString [])).natAbs = 5381 := by decide
    rw [h5381]
  · unfold getShardId
    rw [natAbs_tmod_eq]
    exact Nat.mod_lt _ h

theorem getShardId_boundary_witness :
    0 < 16
      ∧ (getShardId [] 16 = 5381 % 16
        ∧ getShardId [⟨97, by decide⟩] 16 < 16) :=
  ⟨by decide, getShardId_boundary 16 ⟨97, by decide⟩ (by decide)⟩

/-! ## The local ShardManagerClient (`shardManagerClient`, `makeLocal`)

```
const shards = pipe(
  Array.range(1, config.numberOfShards),
  Array.map((n) => [ShardId.make(n), Option.some(address)] as const),
  HashMap.fromIterable
)
```

`Array.range(start, end)` in effect is inclusive of both endpoints, so the
assignment map has keys `1, 2, ..., numberOfShards`, each mapped to
`Option.some` of the sole local pod's address. -/

/-- The assignment map built by `makeLocal`. -/
def makeLocalShards (address : PodAddress) (numberOfShards : Nat) :
    List (Nat × Option PodAddress) :=
  (List.range' 1 numberOfShards).map (fun n => (n, some address))

/-- C3 (code bug): with `numberOfShards = 2`, the local client's map has keys
`{1, 2}` and every key is mapped to `Some(localAddress)` — but
`getShardId("a") = 0`, and shard `0` is **not** a key of the map, so an
entityId hashing to shard `0` has no owner in the degenerate assignment.  The
claim (and the spec, which fixes `ShardId ∈ [0, numberOfShards)`) is the
intent; `Array.range(1, n)` is off by one against `getShardId`'s range. -/
theorem makeLocal_missing_shard_zero :
    lookupA (makeLocalShards ⟨"localhost", 8080⟩ 2) 1 = some (some ⟨"localhost", 8080⟩)
      ∧ lookupA (makeLocalShards ⟨"localhost", 8080⟩ 2) 2 = some (some ⟨"localhost", 8080⟩)
      ∧ getShardId [⟨97, by decide⟩] 2 = 0
      ∧ lookupA (makeLocalShards ⟨"localhost", 8080⟩ 2) (getShardId [⟨97, by decide⟩] 2)
          = none := by decide

/-! ## Local routing (`sharding.ts`, `isEntityOnLocalShards` /
`sendToLocalEntityManager`)

```
function isEntityOnLocalShards(address: EntityAddress): Effect.Effect<boolean> {
  return Ref.get(shardAssignments).pipe(Effect.map((shards) => {
    const shardId = getShardId(address.entityId)
    const maybeAddress = HashMap.get(shards, shardId)
    return Equal.equals(maybeAddress, Option.some(address))
  }))
}

function sendToLocalEntityManager(envelope) {
  const address = Schema.validateSync(EntityAddress)(envelope.address)
  return new EntityNotManagedByPod({ address }).pipe(
    Effect.unlessEffect(isEntityOnLocalShards(address)),
    Effect.zipRight(Ref.get(entityManagers)),
    Effect.flatMap(HashMap.get(address)),
    Effect.flatMap((state) => state.manager.send(envelope)),
    Effect.catchTag("NoSuchElementException", () => new EntityNotManagedByPod({ address }))
  )
}
```

Two details matter and are modelled exactly:

* in `isEntityOnLocalShards` the parameter `address` (an `EntityAddress`)
  shadows the module-level pod `address`, so `Equal.equals` compares the
  `Option<PodAddress>` from the assignment map with `Option.some` of an
  **EntityAddress**.  `Equal.equals` is dynamic structural equality over
  runtime values; a `PodAddress` value and an `EntityAddress` value are never
  equal.  The sum `Val` represents these dynamically compared runtime values;
* `entityManagers` is keyed by `EntityType`, but the lookup key is the whole
  `EntityAddress` (`HashMap.get(address)`, not `address.entityType`).  The sum
  `MgrKey` represents the dynamically compared keys; `registerEntity` inserts
  entries under `MgrKey.typeKey (entity.type)`. -/

/-- A runtime value handed to `Equal.equals`: either a `PodAddress` or an
`EntityAddress`.  Values of different classes are never `Equal.equals`. -/
inductive Val where
  | pod (p : PodAddress)
  | entity (a : EntityAddress)
deriving DecidableEq

/-- A runtime key of the `entityManagers` hash map: `registerEntity` inserts
`EntityType` strings; the buggy lookup in `sendToLocalEntityManager` queries
with a whole `EntityAddress`. -/
inductive MgrKey where
  | typeKey (t : String)
  | addressKey (a : EntityAddress)
deriving DecidableEq

/-- `Equal.equals` on two optional runtime values. -/
def optValEq : Option Val → Option Val → Bool
  | none, none => true
  | some v, some w => decide (v = w)
  | _, _ => false

/-- The result surfaced by `sendToLocalEntityManager`. -/
inductive SendResult where
  | success
  | entityNotManagedByPod (address : EntityAddress)
  | malformedMessage
deriving DecidableEq

/-- An encoded envelope whose address part has already been validated
(`Schema.validateSync` succeeded); the message payload is opaque here. -/
structure EncodedEnvelope where
  address : EntityAddress
  message : Nat
deriving DecidableEq

/-- `isEntityOnLocalShards` from the source: recompute the shard from the
entityId, fetch the assigned pod, and compare it — via dynamic `Equal.equals`
— against `Option.some` of the shadowing **entity** address. -/
def isEntityOnLocalShards (shardAssignments : List (Nat × PodAddress))
    (numberOfShards : Nat) (address : EntityAddress) : Bool :=
  let shardId := getShardId address.entityId numberOfShards
  let maybeAddress := (lookupA shardAssignments shardId).map Val.pod
  optValEq maybeAddress (some (Val.entity address))

/-- `sendToLocalEntityManager` from the source: fail with
`EntityNotManagedByPod` unless `isEntityOnLocalShards`; then look the
**EntityAddress** up in the `EntityType`-keyed manager registry
(`HashMap.get(address)`), a miss (`NoSuchElementException`) being caught into
`EntityNotManagedByPod`; on a hit, delegate to `manager.send`. -/
def sendToLocalEntityManager (shardAssignments : List (Nat × PodAddress))
    (numberOfShards : Nat)
    (entityManagers : List (MgrKey × (EncodedEnvelope → SendResult)))
    (envelope : EncodedEnvelope) : SendResult :=
  let address := envelope.address
  if isEntityOnLocalShards shardAssignments numberOfShards address then
    match lookupA entityManagers (MgrKey.addressKey address) with
    | some manager => manager envelope
    | none => SendResult.entityNotManagedByPod address
  else SendResult.entityNotManagedByPod address

/-- A `PodAddress` runtime value never `Equal.equals` an `EntityAddress`
runtime value, so `isEntityOnLocalShards` is constantly `false`. -/
theorem isEntityOnLocalShards_false (shardAssignments : List (Nat × PodAddress))
    (numberOfShards : Nat) (address : EntityAddress) :
    isEntityOnLocalShards shardAssignments numberOfShards address = false := by
  unfold isEntityOnLocalShards
  cases h : lookupA shardAssignments (getShardId address.entityId numberOfShards) <;>
    simp [h, optValEq]

/-- The local pod address used in the C1 evaluation. -/
def localPod : PodAddress := ⟨"localhost", 8080⟩

/-- The entityId `"x"` (UTF-16 code unit 120). -/
def entityIdX : EntityId := [⟨120, by decide⟩]

/-- The entity address for `"x"` under 16 shards, with the shardId the hash
derivation actually produces. -/
def addressX : EntityAddress := ⟨getShardId entityIdX 16, "Counter", entityIdX⟩

/-- A shard-assignment cache that maps `"x"`'s shard to the local pod. -/
def shardsX : List (Nat × PodAddress) := [(getShardId entityIdX 16, localPod)]

/-- A manager registry with a manager registered under entity type
`"Counter"` (whose `send` succeeds on everything). -/
def managersX : List (MgrKey × (EncodedEnvelope → SendResult)) :=
  [(MgrKey.typeKey "Counter", fun _ => SendResult.success)]

/-- C1 (code bug): even when the local cache assigns the envelope's shard to
the local pod and a manager is registered under the address's entityType,
`sendToLocalEntityManager` returns `EntityNotManagedByPod`: the shadowed
comparison in `isEntityOnLocalShards` is constantly `false` (and the manager
lookup keys the type-keyed registry by the full address, so it always
misses). -/
theorem sendToLocalEntityManager_bug :
    lookupA shardsX (getShardId entityIdX 16) = some localPod
      ∧ (lookupA managersX (MgrKey.typeKey "Counter")).isSome = true
      ∧ isEntityOnLocalShards shardsX 16 addressX = false
      ∧ sendToLocalEntityManager shardsX 16 managersX ⟨addressX, 0⟩
          = SendResult.entityNotManagedByPod addressX :=
  ⟨rfl, rfl, isEntityOnLocalShards_false shardsX 16 addressX, by
    simp [sendToLocalEntityManager, isEntityOnLocalShards_false]⟩

/-! ## EntityManager: the `send` pipeline (`entityManager-old.ts`, second
revision, `send`)

```
function send(envelope) {
  return decodeEnvelope(envelope).pipe(
    Effect.bindTo("envelope"),
    Effect.bind("entry", ({ envelope }) => storage.saveMessage(envelope.address, envelope.message)),
    Effect.flatMap(({ entry, envelope }) => sendMessageToEntity(envelope.address, entry)),
    Effect.catchTags({
      NoSuchElementException: () => Effect.void,
      ParseError: (cause) => new MalformedMessage({ cause }),
      MessagePersistenceError: () => Effect.void
    }),
    Effect.provide(runtime)
  )
}
```

Each suspension's observed outcome is an oracle: `decode` for
`decodeEnvelope`, `save` for `storage.saveMessage`, `deliver` for
`sendMessageToEntity` (which can only fail with `EntityNotManagedByPod`; the
`NoSuchElementException` of the `entities` lookup is caught inside
`getOrCreateState`). -/

/-- Outcome of `decodeEnvelope` on the encoded envelope. -/
inductive DecodeOutcome (Msg : Type) where
  | ok (address : EntityAddress) (message : Msg)
  | parseError
deriving DecidableEq

/-- Outcome of `storage.saveMessage(address, message)`. -/
inductive SaveOutcome (Entry : Type) where
  | ok (entry : Entry)
  | messagePersistenceError
  | noSuchElementException
deriving DecidableEq

/-- Outcome of `sendMessageToEntity(address, entry)`. -/
inductive DeliverOutcome where
  | ok
  | entityNotManagedByPod (address : EntityAddress)
deriving DecidableEq

/-- An error of the `send` pipeline before the trailing `catchTags`. -/
inductive PipelineError where
  | parseError
  | messagePersistenceError
  | noSuchElementException
  | entityNotManagedByPod (address : EntityAddress)
deriving DecidableEq

/-- An error surfaced by `send` to its caller. -/
inductive SendError where
  | entityNotManagedByPod (address : EntityAddress)
  | malformedMessage
deriving DecidableEq

/-- The `send` pipeline up to (not including) the trailing `catchTags`:
decode, then persist, then deliver, short-circuiting on the first failure. -/
def sendPipeline {Msg Entry : Type} (decode : DecodeOutcome Msg)
    (save : EntityAddress → Msg → SaveOutcome Entry)
    (deliver : EntityAddress → Entry → DeliverOutcome) :
    Except PipelineError Unit :=
  match decode with
  | .parseError => .error .parseError
  | .ok address message =>
    match save address message with
    | .messagePersistenceError => .error .messagePersistenceError
    | .noSuchElementException => .error .noSuchElementException
    | .ok entry =>
      match deliver address entry with
      | .ok => .ok ()
      | .entityNotManagedByPod a => .error (.entityNotManagedByPod a)

/-- The trailing `catchTags`: `NoSuchElementException → Effect.void`,
`ParseError → MalformedMessage`, `MessagePersistenceError → Effect.void`;
`EntityNotManagedByPod` is not caught and passes through. -/
def catchSendTags : Except PipelineError Unit → Except SendError Unit
  | .ok _ => .ok ()
  | .error .parseError => .error .malformedMessage
  | .error .noSuchElementException => .ok ()
  | .error .messagePersistenceError => .ok ()
  | .error (.entityNotManagedByPod a) => .error (.entityNotManagedByPod a)

/-- `EntityManager.send`. -/
def send {Msg Entry : Type} (decode : DecodeOutcome Msg)
    (save : EntityAddress → Msg → SaveOutcome Entry)
    (deliver : EntityAddress → Entry → DeliverOutcome) :
    Except SendError Unit :=
  catchSendTags (sendPipeline decode save deliver)

/-- C5: `send` returns `MalformedMessage` when decoding fails; succeeds
(suppressing the error) when `saveMessage` fails with
`MessagePersistenceError`; succeeds silently when the store returns
`NoSuchElementException`; and in each of these three cases surfaces no other
error — the result is exactly the one stated. -/
theorem send_error_policy (Msg Entry : Type)
    (save saveP saveN : EntityAddress → Msg → SaveOutcome Entry)
    (deliver : EntityAddress → Entry → DeliverOutcome)
    (address : EntityAddress) (message : Msg)
    (hP : saveP address message = .messagePersistenceError)
    (hN : saveN address message = .noSuchElementException) :
    @send Msg Entry .parseError save deliver = .error .malformedMessage
      ∧ send (.ok address message) saveP deliver = .ok ()
      ∧ send (.ok address message) saveN deliver = .ok () := by
  refine ⟨rfl, ?_, ?_⟩
  · simp [send, sendPipeline, hP, catchSendTags]
  · simp [send, sendPipeline, hN, catchSendTags]

theorem send_error_policy_witness :
    ((fun (_ : EntityAddress) (_ : Nat) => (SaveOutcome.messagePersistenceError : SaveOutcome Nat))
        ⟨0, "T", []⟩ 0 = .messagePersistenceError)
      ∧ ((fun (_ : EntityAddress) (_ : Nat) => (SaveOutcome.noSuchElementException : SaveOutcome Nat))
        ⟨0, "T", []⟩ 0 = .noSuchElementException)
      ∧ (@send Nat Nat .parseError (fun _ _ => .ok 0) (fun _ _ => .ok)
          = .error .malformedMessage
        ∧ @send Nat Nat (.ok ⟨0, "T", []⟩ 0)
            (fun _ _ => .messagePersistenceError) (fun _ _ => .ok) = .ok ()
        ∧ @send Nat Nat (.ok ⟨0, "T", []⟩ 0)
            (fun _ _ => .noSuchElementException) (fun _ _ => .ok) = .ok ()) :=
  ⟨rfl, rfl,
    send_error_policy Nat Nat (fun _ _ => .ok 0) (fun _ _ => .messagePersistenceError)
      (fun _ _ => .noSuchElementException) (fun _ _ => .ok) ⟨0, "T", []⟩ 0 rfl rfl⟩

/-! ## The Replier (`entityManager-old.ts`, second revision, `makeReplier`)

```
function makeReplier(address: EntityAddress): Entity.Replier {
  function complete(message, result) {
    const state = InternalMessageState.processed(result)
    return storage.updateMessage(address, message, state).pipe(
      Effect.zipRight(Clock.currentTimeMillis),
      Effect.flatMap((now) => Ref.update(lastActiveTimes, HashMap.set(address, now)))
    )
  }
  return {
    succeed: (message, value) => complete(message, Exit.succeed(value)),
    fail: (message, error) => complete(message, Exit.fail(error)),
    failCause: (message, cause) => complete(message, Exit.failCause(cause)),
    complete,
    completeEffect: (message, effect) => Effect.exit(effect).pipe(Effect.flatMap((exit) => complete(message, exit)))
  }
}
```

Each operation is embedded as the sequence (trace) of state-affecting actions
it performs, in order: the clock reading observed by `Clock.currentTimeMillis`
is the oracle `now`, and for `completeEffect` the oracle `exit` is the result
of `Effect.exit(effect)` (which never fails). -/

/-- An effect `Cause`: a typed failure or anything else (defect,
interruption). -/
inductive Cause (E : Type) where
  | fail (error : E)
  | other
deriving DecidableEq

/-- An effect `Exit`: `Exit.succeed(value)` or a failure carrying a cause;
`Exit.fail(e)` is `failure (Cause.fail e)`. -/
inductive JSExit (A E : Type) where
  | success (value : A)
  | failure (cause : Cause E)
deriving DecidableEq

/-- `MessageState` — `Pending` or `Processed{exit}`. -/
inductive MessageState (A E : Type) where
  | pending
  | processed (exit : JSExit A E)
deriving DecidableEq

/-- A state-affecting action performed by a Replier operation: an
`updateMessage` write to MailboxStorage, or a `lastActiveTimes` update. -/
inductive REvent (Msg A E : Type) where
  | updateMessage (address : EntityAddress) (message : Msg) (state : MessageState A E)
  | setLastActive (address : EntityAddress) (time : Int)
deriving DecidableEq

/-- `complete`: write `Processed{exit}` via `updateMessage`, **then** read the
clock and set `lastActiveTimes[address] := now`. -/
def replierComplete {Msg A E : Type} (address : EntityAddress) (now : Int)
    (message : Msg) (result : JSExit A E) : List (REvent Msg A E) :=
  [.updateMessage address message (.processed result), .setLastActive address now]

/-- `succeed(message, value) = complete(message, Exit.succeed(value))`. -/
def replierSucceed {Msg A E : Type} (address : EntityAddress) (now : Int)
    (message : Msg) (value : A) : List (REvent Msg A E) :=
  replierComplete address now message (.success value)

/-- `fail(message, error) = complete(message, Exit.fail(error))`. -/
def replierFail {Msg A E : Type} (address : EntityAddress) (now : Int)
    (message : Msg) (error : E) : List (REvent Msg A E) :=
  replierComplete address now message (.failure (.fail error))

/-- `failCause(message, cause) = complete(message, Exit.failCause(cause))`. -/
def replierFailCause {Msg A E : Type} (address : EntityAddress) (now : Int)
    (message : Msg) (cause : Cause E) : List (REvent Msg A E) :=
  replierComplete address now message (.failure cause)

/-- `completeEffect(message, effect)`: run `Effect.exit(effect)` (its result
is the oracle `exit`; `Effect.exit` never fails), then `complete`. -/
def replierCompleteEffect {Msg A E : Type} (address : EntityAddress) (now : Int)
    (message : Msg) (exit : JSExit A E) : List (REvent Msg A E) :=
  replierComplete address now message exit

/-! ## EntityManager state and its operations

The per-type state is the pair of `Ref`s `entities` and `lastActiveTimes`.
`MOp` collects the operations that touch it, with their net effect:

* `reply` — a Replier `complete` (any of the five operations):
  `lastActiveTimes[address] := now` (`HashMap.set`);
* `enqueue` — `sendMessageToEntity` via `getOrCreateState` then
  `mailbox.offer`: if the address is live, append to its mailbox; if absent
  and the pod is shutting down, fail with `EntityNotManagedByPod` leaving the
  state unchanged; otherwise create the entity (empty mailbox, scope with the
  removal finalizer) and offer the entry.  Neither path touches
  `lastActiveTimes`;
* `terminate` — `terminateEntity`: under the semaphore, look the address up;
  absence (`NoSuchElementException`, caught) is a no-op; otherwise
  `Scope.close` runs the entity-scope finalizers, whose first registered
  (last run) one removes the address from `entities` — and none of which
  touches `lastActiveTimes`. -/

/-- Live in-memory state of one entity: its mailbox contents (the scope is
implicit — present entries have an open scope). -/
structure EntityStateV (Msg : Type) where
  mailbox : List Msg
deriving DecidableEq

/-- The two `Ref`s of an `EntityManager`. -/
structure ManagerState (Msg : Type) where
  entities : List (EntityAddress × EntityStateV Msg)
  lastActiveTimes : List (EntityAddress × Int)
deriving DecidableEq

/-- An operation of the `EntityManager` acting on `ManagerState`. -/
inductive MOp (Msg : Type) where
  | reply (address : EntityAddress) (now : Int)
  | enqueue (address : EntityAddress) (entry : Msg) (isShutdown : Bool)
  | terminate (address : EntityAddress)
deriving DecidableEq

/-- Net state effect of each operation (see the section comment for the
correspondence with the source). -/
def applyOp {Msg : Type} : MOp Msg → ManagerState Msg → ManagerState Msg
  | .reply address now, st =>
    { st with lastActiveTimes := setA st.lastActiveTimes address now }
  | .enqueue address entry isShutdown, st =>
    match lookupA st.entities address with
    | some es => { st with entities := setA st.entities address ⟨es.mailbox ++ [entry]⟩ }
    | none =>
      if isShutdown then st
      else { st with entities := setA st.entities address ⟨[entry]⟩ }
  | .terminate address, st =>
    match lookupA st.entities address with
    | none => st
    | some _ => { st with entities := removeA st.entities address }

theorem enqueue_lastActiveTimes_unchanged {Msg : Type} (address : EntityAddress)
    (entry : Msg) (isShutdown : Bool) (st : ManagerState Msg) :
    (applyOp (.enqueue address entry isShutdown) st).lastActiveTimes
      = st.lastActiveTimes := by
  cases h : lookupA st.entities address with
  | some es => simp [applyOp, h]
  | none => cases isShutdown <;> simp [applyOp, h]

theorem terminate_lastActiveTimes_unchanged {Msg : Type} (address : EntityAddress)
    (st : ManagerState Msg) :
    (applyOp (.terminate address) st).lastActiveTimes = st.lastActiveTimes := by
  cases h : lookupA st.entities address <;> simp [applyOp, h]

/-- C6: every Replier operation first writes the `Processed{exit}` state via
`updateMessage` and only afterwards sets `lastActiveTimes[address]` to the
current time; and the enqueue path never updates `lastActiveTimes` (only a
processed reply does). -/
theorem replier_update_before_lastActive (Msg A E : Type) (address : EntityAddress)
    (now : Int) (message : Msg) (value : A) (error : E) (cause : Cause E)
    (exit exit' : JSExit A E) (st : ManagerState Msg) (a' : EntityAddress)
    (entry : Msg) (isShutdown : Bool) :
    @replierSucceed Msg A E address now message value
        = [.updateMessage address message (.processed (.success value)),
           .setLastActive address now]
      ∧ replierFail (A := A) address now message error
        = [.updateMessage address message (.processed (.failure (.fail error))),
           .setLastActive address now]
      ∧ replierFailCause (A := A) address now message cause
        = [.updateMessage address message (.processed (.failure cause)),
           .setLastActive address now]
      ∧ replierComplete address now message exit
        = [.updateMessage address message (.processed exit),
           .setLastActive address now]
      ∧ replierCompleteEffect address now message exit'
        = [.updateMessage address message (.processed exit'),
           .setLastActive address now]
      ∧ (applyOp (.enqueue a' entry isShutdown) st).lastActiveTimes
        = st.lastActiveTimes :=
  ⟨rfl, rfl, rfl, rfl, rfl,
    enqueue_lastActiveTimes_unchanged a' entry isShutdown st⟩

/-- C9: no operation removes an address from `lastActiveTimes`: enqueue and
terminate leave it untouched, a reply only inserts or overwrites (the entry
for the replied address becomes `now`, all others are preserved), and after
terminating an entity and recreating it by a new message, the entry from the
previous incarnation is still present. -/
theorem lastActiveTimes_never_removed (Msg : Type) (st : ManagerState Msg)
    (address other : EntityAddress) (t now : Int) (entry : Msg)
    (isShutdown : Bool)
    (hlook : lookupA st.lastActiveTimes address = some t) :
    (applyOp (.enqueue other entry isShutdown) st).lastActiveTimes
        = st.lastActiveTimes
      ∧ (applyOp (.terminate other) st).lastActiveTimes = st.lastActiveTimes
      ∧ lookupA (applyOp (.reply address now) st).lastActiveTimes address = some now
      ∧ (other ≠ address →
          lookupA (applyOp (.reply other now) st).lastActiveTimes address = some t)
      ∧ lookupA
          (applyOp (.enqueue address entry false)
            (applyOp (.terminate address) st)).lastActiveTimes address = some t := by
  refine ⟨enqueue_lastActiveTimes_unchanged other entry isShutdown st,
    terminate_lastActiveTimes_unchanged other st, ?_, ?_, ?_⟩
  · show lookupA (setA st.lastActiveTimes address now) address = some now
    exact lookupA_setA_self _ _ _
  · intro hne
    show lookupA (setA st.lastActiveTimes other now) address = some t
    rw [lookupA_setA_ne _ _ _ _ hne, hlook]
  · rw [enqueue_lastActiveTimes_unchanged, terminate_lastActiveTimes_unchanged, hlook]

theorem lastActiveTimes_never_removed_witness :
    lookupA ([(⟨0, "T", []⟩, 7)] : List (EntityAddress × Int)) ⟨0, "T", []⟩ = some 7
      ∧ ((applyOp (.enqueue ⟨1, "T", [⟨98, by decide⟩]⟩ 0 false)
            (⟨[], [(⟨0, "T", []⟩, 7)]⟩ : ManagerState Nat)).lastActiveTimes
          = [(⟨0, "T", []⟩, 7)]
        ∧ (applyOp (.terminate ⟨1, "T", [⟨98, by decide⟩]⟩)
            (⟨[], [(⟨0, "T", []⟩, 7)]⟩ : ManagerState Nat)).lastActiveTimes
          = [(⟨0, "T", []⟩, 7)]
        ∧ lookupA (applyOp (.reply ⟨0, "T", []⟩ 9)
            (⟨[], [(⟨0, "T", []⟩, 7)]⟩ : ManagerState Nat)).lastActiveTimes ⟨0, "T", []⟩
          = some 9
        ∧ ((⟨1, "T", [⟨98, by decide⟩]⟩ : EntityAddress) ≠ ⟨0, "T", []⟩ →
            lookupA (applyOp (.reply ⟨1, "T", [⟨98, by decide⟩]⟩ 9)
              (⟨[], [(⟨0, "T", []⟩, 7)]⟩ : ManagerState Nat)).lastActiveTimes ⟨0, "T", []⟩
            = some 7)
        ∧ lookupA (applyOp (.enqueue ⟨0, "T", []⟩ 0 false)
            (applyOp (.terminate ⟨0, "T", []⟩)
              (⟨[], [(⟨0, "T", []⟩, 7)]⟩ : ManagerState Nat))).lastActiveTimes ⟨0, "T", []⟩
          = some 7) :=
  ⟨by decide,
    lastActiveTimes_never_removed Nat ⟨[], [(⟨0, "T", []⟩, 7)]⟩ ⟨0, "T", []⟩
      ⟨1, "T", [⟨98, by decide⟩]⟩ 7 9 0 false (by decide)⟩

/-! ## The expiration fiber (`entityManager-old.ts`, second revision,
`startExpirationFiber`)

```
function startExpirationFiber(address, entityScope) {
  const maxIdleTime = Duration.toMillis(options?.maxIdleTime ?? config.entityMaxIdleTime)
  function sleep(duration) {
    return Clock.sleep(duration).pipe(
      Effect.zipRight(Clock.currentTimeMillis),
      Effect.zip(Ref.get(lastActiveTimes)),
      Effect.flatMap(([now, map]) => {
        const lastActive = HashMap.get(map, address).pipe(Option.getOrElse(() => 0))
        const elapsed = now - lastActive
        const remaining = maxIdleTime - elapsed
        return remaining > 0 ? sleep(remaining) : Effect.void
      })
    )
  }
  return sleep(maxIdleTime).pipe(
    Effect.zipRight(terminateEntity(address).pipe(Effect.forkIn(managerScope))),
    Effect.forkIn(entityScope),
    Effect.interruptible
  )
}
```

Each `Clock.sleep` suspension ends with an observation of
`(Clock.currentTimeMillis, Ref.get(lastActiveTimes))`; the list `obs` holds
these observations in order.  `expirationSleep` returns the durations passed
to `Clock.sleep`, in order, and whether the loop exited — exiting means
`terminateEntity(address)` is forked in the manager scope.  When `obs` is
exhausted the fiber is still asleep (`false`). -/

/-- `remaining` as computed at one wakeup: with `lastActive` defaulting to
`0` when the address is absent, `maxIdleTime - (now - lastActive)`. -/
def remainingAfter (maxIdleTime : Int) (address : EntityAddress)
    (ob : Int × List (EntityAddress × Int)) : Int :=
  maxIdleTime - (ob.1 - ((lookupA ob.2 address).getD 0))

/-- The recursive `sleep` of `startExpirationFiber`, driven by the
observations of `(now, lastActiveTimes)` at each wakeup. -/
def expirationSleep (maxIdleTime : Int) (address : EntityAddress) :
    List (Int × List (EntityAddress × Int)) → Int → List Int × Bool
  | [], duration => ([duration], false)
  | ob :: rest, duration =>
    let lastActive := (lookupA ob.2 address).getD 0
    let elapsed := ob.1 - lastActive
    let remaining := maxIdleTime - elapsed
    if remaining > 0 then
      let r := expirationSleep maxIdleTime address rest remaining
      (duration :: r.1, r.2)
    else ([duration], true)

theorem expirationSleep_characterization (maxIdleTime : Int) (address : EntityAddress)
    (obs : List (Int × List (EntityAddress × Int))) :
    ∀ duration : Int,
      (expirationSleep maxIdleTime address obs duration).1
          = duration ::
            ((obs.map (remainingAfter maxIdleTime address)).takeWhile
              fun r => decide (0 < r))
        ∧ (expirationSleep maxIdleTime address obs duration).2
          = ((obs.map (remainingAfter maxIdleTime address)).any
              fun r => decide (r ≤ 0)) := by
  induction obs with
  | nil => intro duration; simp [expirationSleep]
  | cons ob rest ih =>
    intro duration
    by_cases h : 0 < remainingAfter maxIdleTime address ob
    · have hgt : maxIdleTime - (ob.1 - ((lookupA ob.2 address).getD 0)) > 0 := h
      have := ih (remainingAfter maxIdleTime address ob)
      simp only [expirationSleep, List.map_cons, List.takeWhile_cons, List.any_cons]
      rw [if_pos hgt]
      refine ⟨?_, ?_⟩
      · rw [decide_eq_true h]
        simp only [remainingAfter] at this ⊢
        rw [this.1]
        simp
      · have hle : ¬ remainingAfter maxIdleTime address ob ≤ 0 := by omega
        rw [decide_eq_false hle]
        simp only [remainingAfter] at this ⊢
        rw [this.2]
        simp
    · have hle : remainingAfter maxIdleTime address ob ≤ 0 := by omega
      have hngt : ¬ maxIdleTime - (ob.1 - ((lookupA ob.2 address).getD 0)) > 0 := by
        simp only [remainingAfter] at hle; omega
      simp only [expirationSleep, List.map_cons, List.takeWhile_cons, List.any_cons]
      rw [if_neg hngt]
      refine ⟨?_, ?_⟩
      · rw [decide_eq_false h]
        simp
      · rw [decide_eq_true hle]
        simp

/-- C7: the expiration task first sleeps `maxIdleTime`; at each wakeup it
reads `lastActiveTimes[address]`, computes
`remaining = maxIdleTime - (now - lastActive)`, and re-sleeps exactly
`remaining` while it is positive; as soon as it is not, it stops sleeping and
forks `terminateEntity(address)` on the manager scope (the `true` flag); and
`terminateEntity` on an address absent from the `entities` map is a no-op
that succeeds without changing any state. -/
theorem expiration_task_spec (Msg : Type) (maxIdleTime : Int)
    (address : EntityAddress) (obs : List (Int × List (EntityAddress × Int)))
    (st : ManagerState Msg) (absent : EntityAddress)
    (habsent : lookupA st.entities absent = none) :
    (expirationSleep maxIdleTime address obs maxIdleTime).1
        = maxIdleTime ::
          ((obs.map (remainingAfter maxIdleTime address)).takeWhile
            fun r => decide (0 < r))
      ∧ (expirationSleep maxIdleTime address obs maxIdleTime).2
        = ((obs.map (remainingAfter maxIdleTime address)).any
            fun r => decide (r ≤ 0))
      ∧ applyOp (.terminate absent) st = st := by
  refine ⟨(expirationSleep_characterization maxIdleTime address obs maxIdleTime).1,
    (expirationSleep_characterization maxIdleTime address obs maxIdleTime).2, ?_⟩
  simp [applyOp, habsent]

theorem expiration_task_spec_witness :
    lookupA (([] : List (EntityAddress × EntityStateV Nat))) ⟨0, "T", []⟩ = none
      ∧ ((expirationSleep 3 ⟨0, "T", []⟩ [(5, [])] 3).1
          = 3 :: (([(5, ([] : List (EntityAddress × Int)))].map (remainingAfter 3 ⟨0, "T", []⟩)).takeWhile
              fun r => decide (0 < r))
        ∧ (expirationSleep 3 ⟨0, "T", []⟩ [(5, [])] 3).2
          = (([(5, ([] : List (EntityAddress × Int)))].map (remainingAfter 3 ⟨0, "T", []⟩)).any
              fun r => decide (r ≤ 0))
        ∧ applyOp (.terminate ⟨0, "T", []⟩) (⟨[], []⟩ : ManagerState Nat)
          = (⟨[], []⟩ : ManagerState Nat)) :=
  ⟨rfl, expiration_task_spec Nat 3 ⟨0, "T", []⟩ [(5, [])] ⟨[], []⟩ ⟨0, "T", []⟩ rfl⟩

/-- C10: when the address has no `lastActiveTimes` entry at a wakeup (no
message was ever replied to for it), `lastActive` is taken to be `0`, so
`remaining = maxIdleTime - now`; whenever the clock is at or past
`maxIdleTime`, the task stops after that very first sleep of `maxIdleTime`
and terminates the entity — and enqueuing messages cannot prevent this, since
the enqueue path never inserts a `lastActiveTimes` entry. -/
theorem expiration_without_reply (Msg : Type) (maxIdleTime now : Int)
    (address : EntityAddress) (map : List (EntityAddress × Int))
    (rest : List (Int × List (EntityAddress × Int))) (st : ManagerState Msg)
    (entry : Msg) (isShutdown : Bool)
    (hnone : lookupA map address = none) (hclock : maxIdleTime ≤ now) :
    remainingAfter maxIdleTime address (now, map) = maxIdleTime - now
      ∧ expirationSleep maxIdleTime address ((now, map) :: rest) maxIdleTime
        = ([maxIdleTime], true)
      ∧ lookupA (applyOp (.enqueue address entry isShutdown) st).lastActiveTimes address
        = lookupA st.lastActiveTimes address := by
  have hrem : remainingAfter maxIdleTime address (now, map) = maxIdleTime - now := by
    simp [remainingAfter, hnone]
  refine ⟨hrem, ?_, ?_⟩
  · have hngt : ¬ maxIdleTime - (now - ((lookupA map address).getD 0)) > 0 := by
      rw [hnone]
      simp only [Option.getD_none]
      omega
    simp only [expirationSleep]
    rw [if_neg hngt]
  · rw [enqueue_lastActiveTimes_unchanged]

theorem expiration_without_reply_witness :
    lookupA ([] : List (EntityAddress × Int)) ⟨0, "T", []⟩ = none
      ∧ (3 : Int) ≤ 5
      ∧ (remainingAfter 3 ⟨0, "T", []⟩ (5, []) = 3 - 5
        ∧ expirationSleep 3 ⟨0, "T", []⟩ [(5, [])] 3 = ([3], true)
        ∧ lookupA (applyOp (.enqueue ⟨0, "T", []⟩ 0 false)
            (⟨[], []⟩ : ManagerState Nat)).lastActiveTimes ⟨0, "T", []⟩
          = lookupA (⟨[], []⟩ : ManagerState Nat).lastActiveTimes ⟨0, "T", []⟩) :=
  ⟨rfl, by decide,
    expiration_without_reply Nat 3 5 ⟨0, "T", []⟩ [] [] ⟨[], []⟩ 0 false rfl (by decide)⟩

/-! ## Pod shutdown (`sharding.ts`, `unregister`)

```
const unregister = shardManager.getAssignments.pipe(
  Effect.matchCauseEffect({
    onFailure: (cause) =>
      Effect.logWarning("ShardManager not available - cannot unregister pod cleanly: ", cause),
    onSuccess: () =>
      Effect.logDebug("Terminating local entities").pipe(
        Effect.zipRight(Ref.set(isShutdown, true)),
        Effect.zipRight(Ref.get(entityManagers)),
        Effect.flatMap(Effect.forEach(([type, state]) =>
          Effect.catchAllCause(
            Scope.close(state.scope, Exit.void),
            (cause) => Effect.logError(`...`, cause)
          )
        )),
        Effect.zipRight(Effect.logDebug("Unregistering pod from shard manager", address)),
        Effect.zipRight(
          Effect.catchAllCause(
            shardManager.unregister(address),
            (cause) => Effect.logError("Error during pod unregister", cause)
          )
        )
      )
  })
)
```

The run is embedded as the trace of its externally visible actions, driven by
oracles for the outcome of the initial `getAssignments` probe, of each
`Scope.close`, and of the `shardManager.unregister` call.  The Bool result
records whether `unregister` as a whole succeeds (its error channel is
`never`: every failure is logged and swallowed). -/

/-- An externally visible action of the `unregister` run.  A `true` flag on
`closeManagerScope` / `callUnregister` records that the attempted action
failed (the failure is logged and swallowed, the run proceeds). -/
inductive UEvent where
  | setIsShutdownTrue
  | closeManagerScope (entityType : String) (failed : Bool)
  | callUnregister (failed : Bool)
deriving DecidableEq

/-- The `Effect.forEach` over the registered entity managers: attempt to
close every manager scope in registration order, each failure caught by
`catchAllCause` and logged. -/
def closeAllManagers (managerTypes : List String) (closeFails : String → Bool) :
    List UEvent :=
  managerTypes.map (fun t => UEvent.closeManagerScope t (closeFails t))

/-- The `unregister` run: probe the ShardManager with `getAssignments`; on
failure only log a warning; on success set `isShutdown := true`, close every
registered manager scope, then call `shardManager.unregister(address)` with
its failure caught.  Returns the action trace and whether the run
succeeded. -/
def unregisterRun (getAssignmentsSucceeds : Bool) (managerTypes : List String)
    (closeFails : String → Bool) (unregisterCallFails : Bool) :
    List UEvent × Bool :=
  if getAssignmentsSucceeds then
    (UEvent.setIsShutdownTrue ::
      (closeAllManagers managerTypes closeFails
        ++ [UEvent.callUnregister unregisterCallFails]), true)
  else ([], true)

/-- C8 counterexample: when the `getAssignments` probe fails (ShardManager
unreachable), the shutdown run performs **none** of the claimed actions —
`isShutdown` is not set, no manager scope is closed, `unregister` is not
called — yet still completes successfully.  This refutes "on **every** pod
shutdown the pod sets `isShutdown` to true, then closes every registered
entity manager scope, and then calls `unregister`". -/
theorem unregister_unavailable_counterexample :
    unregisterRun false ["Counter"] (fun _ => false) false = ([], true)
      ∧ UEvent.setIsShutdownTrue ∉ (unregisterRun false ["Counter"] (fun _ => false) false).1
      ∧ UEvent.callUnregister false ∉ (unregisterRun false ["Counter"] (fun _ => false) false).1 := by
  decide

/-- C8 (amended): when the initial `getAssignments` probe of the ShardManager
succeeds, the shutdown run first sets `isShutdown := true`, then attempts to
close every registered entity manager scope (failures logged and ignored),
and last calls `unregister(localAddress)`; and whatever the probe, the close
outcomes, and the unregister outcome, the run completes successfully. -/
theorem unregister_sequence (managerTypes : List String)
    (closeFails : String → Bool) (unregisterCallFails probe : Bool)
    (t : String) (ht : t ∈ managerTypes) :
    (unregisterRun true managerTypes closeFails unregisterCallFails).1.head?
        = some UEvent.setIsShutdownTrue
      ∧ UEvent.closeManagerScope t (closeFails t)
        ∈ (unregisterRun true managerTypes closeFails unregisterCallFails).1
      ∧ (unregisterRun true managerTypes closeFails unregisterCallFails).1.getLast?
        = some (UEvent.callUnregister unregisterCallFails)
      ∧ (unregisterRun probe managerTypes closeFails unregisterCallFails).2 = true := by
  refine ⟨rfl, ?_, ?_, ?_⟩
  · simp only [unregisterRun, if_pos]
    exact List.mem_cons_of_mem _ (List.mem_append_left _
      (List.mem_map.mpr ⟨t, ht, rfl⟩))
  · simp only [unregisterRun, if_pos]
    rw [← List.cons_append, List.getLast?_concat]
  · cases probe <;> rfl

theorem unregister_sequence_witness :
    "Counter" ∈ ["Counter"]
      ∧ ((unregisterRun true ["Counter"] (fun _ => true) true).1.head?
          = some UEvent.setIsShutdownTrue
        ∧ UEvent.closeManagerScope "Counter" ((fun (_ : String) => true) "Counter")
          ∈ (unregisterRun true ["Counter"] (fun _ => true) true).1
        ∧ (unregisterRun true ["Counter"] (fun _ => true) true).1.getLast?
          = some (UEvent.callUnregister true)
        ∧ (unregisterRun false ["Counter"] (fun _ => true) true).2 = true) :=
  ⟨by decide, unregister_sequence ["Counter"] (fun _ => true) true false "Counter"
    (by decide)⟩

end ClusterSpec
